import Mathlib

/-!
Shallow embedding of the flexcore reactive dataflow core, covering the
region-aware connection layer (src/ports/region_aware.hpp), the generic
composite nodes (src/nodes/generic.hpp) and the settings facades
(src/settings/settings.hpp).

Stateless straight-line bodies are embedded as pure functions; bodies that
perform port effects (pulling a state sink, firing an event source) are
embedded as functions returning the trace of those effects, so that "pulls
exactly once" style contracts can be stated.  Weak pointers are embedded as
Option values: none models an expired weak reference whose lock() yields a
null pointer.
-/

namespace Flexcore

/-- Region identity carried by a region_info object
(src/threading/parallelregion.hpp).  Modelled from the spec: the definition
of operator== on region_id is not part of the sources (only its declaration
is); the spec states that two endpoints are same-region iff their region ids
compare equal, so ids are modelled as naturals compared by equality. -/
structure RegionInfo where
  id : Nat
deriving DecidableEq, Repr

/-- A region-aware port (region_aware in src/ports/region_aware.hpp, lines
14-32): a port carrying a weak reference to its parent region_info.  The
weak pointer is modelled as an Option: none means the region has expired and
lock() yields a null shared_ptr. -/
structure RegionAwarePort where
  parent_region_info : Option RegionInfo
deriving DecidableEq, Repr

/-- same_region (src/ports/region_aware.hpp, lines 34-39).  The C++ body
unconditionally dereferences the result of lock() on both weak references;
when either lock yields null that dereference is undefined behaviour, which
the embedding records as none.  When both regions are alive it compares the
two region ids for equality. -/
def same_region (source sink : RegionAwarePort) : Option Bool :=
  match source.parent_region_info, sink.parent_region_info with
  | some rs, some rt => some (rs.id == rt.id)
  | _, _ => none

/-- The object construct_buffer hands back: either a real double buffer
wired to a producer-side switch_tick and a consumer-side work_tick
(recorded by the two region ids it was wired to), or a no_buffer. -/
inductive ConstructedBuffer where
  | realBuffer (switchWiredTo workWiredTo : Nat) : ConstructedBuffer
  | noBuffer : ConstructedBuffer
deriving DecidableEq, Repr

/-- construct_buffer (src/ports/region_aware.hpp, lines 45-59).  When
same_region holds it constructs a real buffer, wires the SOURCE region's
switch_tick to the buffer's in_switch and the SINK region's work_tick to
its in_send, and returns the buffer (the body's final statement is the
identifier slip `return result;`, read as returning the just-built
result_buffer, the only candidate in scope); when the regions differ it
returns a no_buffer.  The branch dereferences the region locks again, so an
expired region is again none. -/
def construct_buffer (source sink : RegionAwarePort) : Option ConstructedBuffer :=
  match same_region source sink with
  | none => none
  | some true =>
    match source.parent_region_info, sink.parent_region_info with
    | some rs, some rt => some (ConstructedBuffer.realBuffer rs.id rt.id)
    | _, _ => none
  | some false => some ConstructedBuffer.noBuffer

/-! ### Generic composite nodes (src/nodes/generic.hpp) -/

/-- One observable effect of evaluating transform_node::operator() :
pulling the param state sink, or invoking the stored binary operator. -/
inductive TransformEff (T P R : Type) where
  | pullParam (p : P) : TransformEff T P R
  | invokeOp (x : T) (p : P) (r : R) : TransformEff T P R
deriving DecidableEq, Repr

/-- Discriminator for param pulls in a transform trace. -/
def isParamPull {T P R : Type} : TransformEff T P R → Bool
  | TransformEff.pullParam _ => true
  | _ => false

/-- Discriminator for operator invocations in a transform trace. -/
def isOpInvocation {T P R : Type} : TransformEff T P R → Bool
  | TransformEff.invokeOp _ _ _ => true
  | _ => false

/-- transform_node::operator() (src/nodes/generic.hpp, lines 33-36):
`return op(in, param.get());`.  The param state sink is modelled from the
spec (state_sink.get() dispatches to the bound upstream source) by the
value paramVal that this pull returns.  The result is the returned value
together with the trace of effects the body performs, in order. -/
def transform_call {T P R : Type} (op : T → P → R) (paramVal : P) (x : T) :
    R × List (TransformEff T P R) :=
  let p := paramVal
  let r := op x p
  (r, [TransformEff.pullParam p, TransformEff.invokeOp x p r])

/-- The error a state-variant n_ary_switch raises when queried with a key
absent from its input map: std::map::at throws, named UnknownKey in the
spec's error taxonomy. -/
inductive SwitchError where
  | UnknownKey : SwitchError
deriving DecidableEq, Repr

/-- Key lookup in the std::map of input ports (keys are unique). -/
def lookupKey {K T : Type} [DecidableEq K] : List (K × T) → K → Option T
  | [], _ => none
  | (k, v) :: rest, key => if k = key then some v else lookupKey rest key

/-- The out_port callable of the state-variant n_ary_switch
(src/nodes/generic.hpp, lines 71-76):
`[this](){ return in_ports.at(index.get()).get(); }`.  control is the value
the control state sink returns at query time; each stored input state port
is modelled by the value its upstream get() returns.  std::map::at on an
absent key fails instead of returning a value. -/
def state_switch_out {K T : Type} [DecidableEq K]
    (in_ports : List (K × T)) (control : K) : Except SwitchError T :=
  match lookupKey in_ports control with
  | some v => Except.ok v
  | none => Except.error SwitchError.UnknownKey

/-- n_ary_switch event-variant in(k) (src/nodes/generic.hpp, lines
108-121): inserts a port for key k into the input map if none exists, then
returns the port stored for k.  The map is modelled by its key set as a
list (the mapped value for key k is always the closure firing
forward_call(event, k)). -/
def switch_in {K : Type} [DecidableEq K] (in_ports : List K) (k : K) : List K :=
  if k ∈ in_ports then in_ports else in_ports ++ [k]

/-- n_ary_switch event-variant forward_call (src/nodes/generic.hpp, lines
133-141).  The two asserts (the input map is non-empty; the calling port's
key is present) are modelled as definedness: none when an assert fails.
Otherwise the body fires the event on out iff the calling port's key equals
the value the control state sink returns; the result is the list of events
fired downstream. -/
def forward_call {K T : Type} [DecidableEq K]
    (in_ports : List K) (control : K) (event : T) (port : K) : Option (List T) :=
  if in_ports = [] then none
  else if port ∈ in_ports then
    some (if port = control then [event] else [])
  else none

/-- One observable effect of the callable returned by
watch_node::check_tick : pulling the in state sink, evaluating the stored
predicate, or firing the out event source. -/
inductive WatchEff (T : Type) where
  | pullIn (v : T) : WatchEff T
  | evalPred (v : T) (r : Bool) : WatchEff T
  | fireOut (v : T) : WatchEff T
deriving DecidableEq, Repr

/-- Discriminator for state-sink pulls in a watch trace. -/
def isInPull {T : Type} : WatchEff T → Bool
  | WatchEff.pullIn _ => true
  | _ => false

/-- Discriminator for predicate evaluations in a watch trace. -/
def isPredEval {T : Type} : WatchEff T → Bool
  | WatchEff.evalPred _ _ => true
  | _ => false

/-- The values fired on the out event source, extracted from a watch trace. -/
def firedValues {T : Type} (tr : List (WatchEff T)) : List T :=
  tr.filterMap fun e =>
    match e with
    | WatchEff.fireOut v => some v
    | _ => none

/-- The body of the callable returned by watch_node::check_tick
(src/nodes/generic.hpp, lines 169-177):
`const auto tmp = in_port.get(); if (pred(tmp)) out_port.fire(tmp);`.
inVal is the value the in state sink's upstream source returns on this
tick (modelled from the spec: state_sink.get() dispatches upstream).  The
result is the trace of effects the body performs, in order. -/
def check_tick {T : Type} (pred : T → Bool) (inVal : T) : List (WatchEff T) :=
  let tmp := inVal
  WatchEff.pullIn tmp :: WatchEff.evalPred tmp (pred tmp) ::
    (if pred tmp then [WatchEff.fireOut tmp] else [])

/-- The stateful predicate closure built by on_changed
(src/nodes/generic.hpp, lines 197-209).  Its captured state is the
shared_ptr last (none models the initial nullptr).  One call executes
`bool check = last && (*last == in); last = make_shared(in); return check;`
returning the predicate value and the updated state. -/
def on_changed_step {T : Type} [BEq T] (last : Option T) (v : T) : Bool × Option T :=
  ((match last with
    | some l => l == v
    | none => false), some v)

/-- Drives a watch_node with a stateful predicate over a sequence of
observed state values, one check_tick invocation per element, starting at
tick number i; returns the (tick, value) pairs at which the out event
source fired.  Each tick runs the check_tick body: pull the current value,
evaluate the predicate (updating its captured state), fire iff it returned
true. -/
def run_watch {T σ : Type} (step : σ → T → Bool × σ) :
    σ → Nat → List T → List (Nat × T)
  | _, _, [] => []
  | s, i, v :: rest =>
    let bs := step s v
    (if bs.1 then [(i, v)] else []) ++ run_watch step bs.2 (i + 1) rest

/-! ### Settings facades (src/settings/settings.hpp) -/

/-- Outcome of asking the cereal JSON archive for a keyed value.  Modelled
from the spec: the archive reads a keyed value from the input stream and
throws a cereal exception when the key is absent, the stream is empty, or
parsing fails. -/
inductive ArchiveRead (T : Type) where
  | ok (v : T) : ArchiveRead T
  | failure : ArchiveRead T
deriving DecidableEq, Repr

/-- const_setting_backend_facade::register_setting
(src/settings/settings.hpp, lines 20-27; the region overload at lines 29-36
has the identical body): calls the setter once with the initial value.  The
result is the list of values passed to the setter, in call order, all
before register_setting returns. -/
def register_setting_const {T : Type} (initial : T) : List T :=
  [initial]

/-- json_file_setting_facade::register_setting
(src/settings/settings.hpp, lines 49-67): copies initial into value, tries
to read the registered key from the archive into value (value remains
unchanged when the archive throws, and the exception is swallowed
silently), then calls the setter with value.  The result is the list of
values passed to the setter, in call order.  The region overload at lines
75-83 delegates to this body. -/
def register_setting_json {T : Type} (archive : String → ArchiveRead T)
    (id : String) (initial : T) : List T :=
  let value :=
    match archive id with
    | ArchiveRead.ok v => v
    | ArchiveRead.failure => initial
  [value]

/-- A concrete archive holding 7 under every key (used as witness input). -/
def archiveOk7 : String → ArchiveRead Nat := fun _ => ArchiveRead.ok 7

/-- A concrete archive on which every read fails (used as witness input). -/
def archiveFail : String → ArchiveRead Nat := fun _ => ArchiveRead.failure

/-! ### Helper lemmas -/

theorem switch_in_self_mem {K : Type} [DecidableEq K] (in_ports : List K) (k : K) :
    k ∈ switch_in in_ports k := by
  unfold switch_in
  by_cases h : k ∈ in_ports
  · rw [if_pos h]
    exact h
  · rw [if_neg h]
    exact List.mem_append.mpr (Or.inr (List.mem_singleton.mpr rfl))

theorem switch_in_ne_nil {K : Type} [DecidableEq K] (in_ports : List K) (k : K) :
    switch_in in_ports k ≠ [] :=
  List.ne_nil_of_mem (switch_in_self_mem in_ports k)

/-! ### Claim theorems -/

/-- Claim C1: evaluation of construct_buffer at concrete endpoints.  For
two endpoints of the same region (both region id 0) the code constructs a
real tick-wired buffer, and for endpoints of different regions (ids 0 and
1) it returns a no_buffer: exactly the opposite of the claimed rule (a real
buffer exactly when same_region is false, a no_buffer exactly when
same_region is true). -/
theorem construct_buffer_inverted :
    same_region ⟨some ⟨0⟩⟩ ⟨some ⟨0⟩⟩ = some true ∧
    construct_buffer ⟨some ⟨0⟩⟩ ⟨some ⟨0⟩⟩ =
      some (ConstructedBuffer.realBuffer 0 0) ∧
    same_region ⟨some ⟨0⟩⟩ ⟨some ⟨1⟩⟩ = some false ∧
    construct_buffer ⟨some ⟨0⟩⟩ ⟨some ⟨1⟩⟩ = some ConstructedBuffer.noBuffer := by
  decide

/-- Claim C2: running the on_changed watch over the observed sequence
[5, 5, 5, 6, 6, 7] (one check_tick per element, ticks numbered from 1).
The code fires on ticks 2, 3 and 5 — each time the value repeats the
previous observation — and in particular not on ticks 4 and 6 as claimed:
the predicate closure built by on_changed is inverted relative to the
claimed "current value differs from previously observed". -/
theorem on_changed_run_555667 :
    run_watch on_changed_step (none : Option Nat) 1 [5, 5, 5, 6, 6, 7]
        = [(2, 5), (3, 5), (5, 6)] ∧
    run_watch on_changed_step (none : Option Nat) 1 [5, 5, 5, 6, 6, 7]
        ≠ [(4, 6), (6, 7)] := by
  decide

/-- Claim C3: for every event-variant n_ary_switch, firing event v through
the input port obtained from in(kj), while the control state sink reads k,
passes both asserts and fires downstream exactly [v] when kj equals k and
[] otherwise: exactly one event, equal to v, iff kj == k, else zero
(dropped silently). -/
theorem n_ary_switch_event_forward {K T : Type} [DecidableEq K]
    (in_ports : List K) (kj k : K) (v : T) :
    forward_call (switch_in in_ports kj) k v kj =
      some (if kj = k then [v] else []) := by
  unfold forward_call
  rw [if_neg (switch_in_ne_nil in_ports kj), if_pos (switch_in_self_mem in_ports kj)]

/-- Claim C4: for every state-variant n_ary_switch, out().get() returns
the value pulled from the input state port stored under the current
control key, and fails with UnknownKey when that key is absent from the
input map. -/
theorem n_ary_switch_state_out {K T : Type} [DecidableEq K]
    (in_ports : List (K × T)) (control : K) :
    (∀ v, lookupKey in_ports control = some v →
        state_switch_out in_ports control = Except.ok v) ∧
    (lookupKey in_ports control = none →
        state_switch_out in_ports control = Except.error SwitchError.UnknownKey) := by
  constructor
  · intro v h
    unfold state_switch_out
    rw [h]
  · intro h
    unfold state_switch_out
    rw [h]

/-- Witness for claim C4 at concrete inputs: the key 1 stored with value
10 is returned, and the empty input map fails with UnknownKey. -/
theorem n_ary_switch_state_out_witness :
    state_switch_out [((1 : Nat), (10 : Nat))] 1 = Except.ok 10 ∧
    state_switch_out ([] : List (Nat × Nat)) 1 =
      Except.error SwitchError.UnknownKey :=
  ⟨(n_ary_switch_state_out [((1 : Nat), (10 : Nat))] 1).1 10 (by decide),
   (n_ary_switch_state_out ([] : List (Nat × Nat)) 1).2 (by decide)⟩

/-- Claim C5: a transform_node built from op, evaluated on x while the
bound parameter source delivers p, returns op(x, p); its evaluation trace
pulls the param state sink exactly once and invokes op exactly once. -/
theorem transform_node_applies_op {T P R : Type} (op : T → P → R) (p : P) (x : T) :
    (transform_call op p x).1 = op x p ∧
    (transform_call op p x).2.countP isParamPull = 1 ∧
    (transform_call op p x).2.countP isOpInvocation = 1 :=
  ⟨rfl, rfl, rfl⟩

/-- Claim C6: the json-file backend's register_setting calls the setter
with the value stored under the registered key when the archive read
succeeds (whatever the initial value is), and with the initial value when
the read fails, the failure being swallowed silently. -/
theorem json_register_setting_reads_key {T : Type}
    (archive : String → ArchiveRead T) (id : String) (initial : T) :
    (∀ v, archive id = ArchiveRead.ok v →
        register_setting_json archive id initial = [v]) ∧
    (archive id = ArchiveRead.failure →
        register_setting_json archive id initial = [initial]) := by
  constructor
  · intro v h
    unfold register_setting_json
    rw [h]
  · intro h
    unfold register_setting_json
    rw [h]

/-- Witness for claim C6 at concrete inputs: an archive holding 7 under
the key makes the setter receive 7 even though the initial value is 42;
a failing archive makes it receive the initial 42. -/
theorem json_register_setting_reads_key_witness :
    register_setting_json archiveOk7 "my_key" 42 = [7] ∧
    register_setting_json archiveFail "my_key" 42 = [42] :=
  ⟨(json_register_setting_reads_key archiveOk7 "my_key" 42).1 7 rfl,
   (json_register_setting_reads_key archiveFail "my_key" 42).2 rfl⟩

/-- Claim C7: both in-scope settings backends call the setter exactly once
before register_setting returns; the const backend passes the initial
value, and the json-file backend passes either the initial value or a
value deserialised from its store. -/
theorem backends_call_setter {T : Type} (initial : T)
    (archive : String → ArchiveRead T) (id : String) :
    register_setting_const initial = [initial] ∧
    (register_setting_json archive id initial = [initial] ∨
      ∃ v, archive id = ArchiveRead.ok v ∧
        register_setting_json archive id initial = [v]) := by
  refine ⟨rfl, ?_⟩
  cases h : archive id with
  | ok v =>
    refine Or.inr ⟨v, rfl, ?_⟩
    unfold register_setting_json
    rw [h]
  | failure =>
    refine Or.inl ?_
    unfold register_setting_json
    rw [h]

/-- Claim C8: each invocation of the callable returned by
watch_node::check_tick pulls the in state sink exactly once, evaluates the
predicate exactly once, and fires the obtained value on the out event
source iff the predicate returned true. -/
theorem watch_check_tick_contract {T : Type} (pred : T → Bool) (inVal : T) :
    (check_tick pred inVal).countP isInPull = 1 ∧
    (check_tick pred inVal).countP isPredEval = 1 ∧
    firedValues (check_tick pred inVal) = if pred inVal then [inVal] else [] := by
  cases h : pred inVal <;>
    simp [check_tick, h, firedValues, isInPull, isPredEval,
      List.countP_cons, List.countP_nil]

/-- Claim C9: whenever both endpoints' parent regions are still alive,
same_region is defined and returns exactly the comparison of the two
region ids (the null-pointer branch is unreachable, and construct_buffer,
which calls it and re-locks the regions, is defined as well); without that
precondition an expired weak reference makes the lock yield null and the
unconditional dereference is undefined. -/
theorem same_region_lock_safety :
    (∀ (s t : RegionAwarePort) (rs rt : RegionInfo),
        s.parent_region_info = some rs → t.parent_region_info = some rt →
        same_region s t = some (rs.id == rt.id) ∧
          (construct_buffer s t).isSome = true) ∧
    (∃ s t : RegionAwarePort, same_region s t = none ∧ construct_buffer s t = none) := by
  constructor
  · intro s t rs rt hs ht
    have h1 : same_region s t = some (rs.id == rt.id) := by
      unfold same_region
      rw [hs, ht]
    refine ⟨h1, ?_⟩
    unfold construct_buffer
    rw [h1, hs, ht]
    cases hb : rs.id == rt.id <;> rfl
  · exact ⟨⟨none⟩, ⟨none⟩, rfl, rfl⟩

/-- Witness for claim C9 at concrete inputs: both regions alive (ids 2 and
3), so same_region returns the id comparison and construct_buffer is
defined. -/
theorem same_region_lock_safety_witness :
    same_region ⟨some ⟨2⟩⟩ ⟨some ⟨3⟩⟩ = some ((2 : Nat) == 3) ∧
    (construct_buffer ⟨some ⟨2⟩⟩ ⟨some ⟨3⟩⟩).isSome = true :=
  same_region_lock_safety.1 ⟨some ⟨2⟩⟩ ⟨some ⟨3⟩⟩ ⟨2⟩ ⟨3⟩ rfl rfl

/-- Claim C10: in(k) on the event-variant n_ary_switch leaves the input
map containing k — inserting the port when absent — so the map is
non-empty afterwards, and for any event later delivered through that port
both assertions inside forward_call hold (its assert-checked execution is
defined). -/
theorem n_ary_switch_in_assert_safe {K T : Type} [DecidableEq K]
    (in_ports : List K) (k control : K) (v : T) :
    k ∈ switch_in in_ports k ∧
    switch_in in_ports k ≠ [] ∧
    (forward_call (switch_in in_ports k) control v k).isSome = true := by
  refine ⟨switch_in_self_mem in_ports k, switch_in_ne_nil in_ports k, ?_⟩
  unfold forward_call
  rw [if_neg (switch_in_ne_nil in_ports k), if_pos (switch_in_self_mem in_ports k)]
  rfl

end Flexcore
